import Mathlib

/-!
Verification model of the ollama-docker-mcp repository.

The executable surface of the repository is the MCP server in
`src/src/index.ts`; the design documents of the repository contain further
TypeScript snippets (the `CircuitBreaker` class, the `getEmbedding` cache,
`smartChunk`, `computeRank`, the pgvector search query and the
deduplication check), which are embedded here as well.  Floating point
numbers are modelled as rationals; the external Ollama HTTP service is
modelled as an explicit record of pure functions, with a failed call
represented as `Except.error` carrying the message of the thrown `Error`.
-/

namespace OllamaMcp

/-- Componentwise dot product of two rational vectors; trailing elements of
the longer vector are ignored (vectors of one embedding model share a fixed
dimension, so the claims only meet equal lengths). -/
def dot : List ℚ → List ℚ → ℚ
  | a :: as, b :: bs => a * b + dot as bs
  | _, _ => 0

/-- Squared Euclidean norm of a vector. -/
def nsq (v : List ℚ) : ℚ := dot v v

/-! ## The MCP server (`src/src/index.ts`) -/

/-- Result of one Ollama HTTP call: either the parsed response payload or
the message of the thrown error (axios rejects with an `Error`). -/
abbrev Svc (α : Type) := Except String α

/-- Payload of `GET /api/tags`: the `models` field may be absent. -/
structure TagsData where
  models : Option (List String)
deriving Repr, DecidableEq

/-- Options object forwarded to `POST /api/generate` by the
`generate_completion` tool (`src/src/index.ts`, lines 218-238). -/
structure GenOptions where
  temperature : ℚ
  top_k : ℚ
  top_p : ℚ
deriving Repr, DecidableEq

/-- Body of `POST /api/generate` as built by `generate_completion`. -/
structure GenerateBody where
  model : String
  prompt : String
  stream : Bool
  options : GenOptions
deriving Repr, DecidableEq

/-- Payload of a successful `POST /api/generate` response (the fields the
server reads back when rendering its reply). -/
structure GenData where
  response : String
  context : List ℚ
  total_duration : ℚ
  load_duration : ℚ
  prompt_eval_count : ℚ
  prompt_eval_duration : ℚ
  eval_count : ℚ
  eval_duration : ℚ
deriving Repr, DecidableEq

/-- The external Ollama endpoints used by the server, one field per `axios`
call site in `src/src/index.ts`, modelled as pure functions.  `embed`
returns `response.data.embeddings`, a list of embedding vectors. -/
structure Ollama where
  tags : Svc TagsData
  showModel : String → Svc String
  embed : String → String → Svc (List (List ℚ))
  generate : GenerateBody → Svc GenData
  pull : String → Svc Unit
  deleteModel : String → Svc Unit

/-- Record of one outgoing HTTP request, used to observe whether a tool
call performs network I/O. -/
inductive ServiceCall
  | tags
  | showModel (model : String)
  | embed (model : String) (text : String)
  | generate (body : GenerateBody)
  | pull (model : String)
  | deleteModel (model : String)
deriving Repr, DecidableEq

/-- Arguments of a tool call (`request.params.arguments`); an absent key is
`none`, matching `undefined` in the TypeScript source. -/
structure CallArgs where
  model : Option String := none
  text : Option String := none
  prompt : Option String := none
  temperature : Option ℚ := none
  top_k : Option ℚ := none
  top_p : Option ℚ := none
  texts : Option (List String) := none
deriving Repr, DecidableEq

/-- Response of the tool dispatcher: the single text content item together
with the `isError` flag (an absent flag is modelled as `false`). -/
structure ToolResponse where
  text : String
  isError : Bool := false
deriving Repr, DecidableEq

/-- Model of the TypeScript expression `(x as number) || d`: `undefined`
and `0` are falsy, so both yield the default.  (`NaN` is also falsy in
JavaScript but has no rational counterpart.) -/
def numOr (x : Option ℚ) (d : ℚ) : ℚ :=
  match x with
  | none => d
  | some v => if v = 0 then d else v

/-- Model of `(x as string)` applied to a possibly absent argument.  The
claims only exercise tool calls whose required string arguments are
present, so the default never matters. -/
def strOr (x : Option String) : String := x.getD ""

/-- Body of the request sent to `POST /api/generate` by
`generate_completion` (`src/src/index.ts`, lines 218-238): every sampling
parameter is filtered through `||`, so a supplied `0` falls back to the
default (`0.7`, `40`, `0.9`). -/
def completionBody (args : CallArgs) : GenerateBody :=
  { model := strOr args.model
    prompt := strOr args.prompt
    stream := false
    options :=
      { temperature := numOr args.temperature (7 / 10)
        top_k := numOr args.top_k 40
        top_p := numOr args.top_p (9 / 10) } }

/-- Textual rendering of a vector.  `JSON.stringify` is abstracted to a
fixed textual rendering throughout; no claim depends on the concrete
serialization of a success payload. -/
def renderVec (v : List ℚ) : String := String.intercalate ", " (v.map toString)

/-- Success text of the `generate_embedding` tool. -/
def renderEmbedding (model : String) (v : List ℚ) : String :=
  "model: " ++ model ++ "; embedding: " ++ renderVec v ++
    "; dimension: " ++ toString v.length

/-- Success text of the `list_models` tool. -/
def renderTags (t : TagsData) : String :=
  "models: " ++ String.intercalate ", " (t.models.getD [])

/-- Success text of the `generate_completion` tool. -/
def renderCompletion (model prompt : String) (g : GenData) : String :=
  "model: " ++ model ++ "; prompt: " ++ prompt ++ "; response: " ++ g.response

/-- One entry of the `batch_embeddings` result; `embeddings[0]` of an empty
response array is `undefined`, modelled as `none`. -/
def renderBatchEntry : String × Option (List ℚ) → String
  | (t, some v) => t ++ ": " ++ renderVec v
  | (t, none) => t ++ ": undefined"

/-- Success text of the `batch_embeddings` tool. -/
def renderBatch (model : String) (l : List (String × Option (List ℚ))) : String :=
  "model: " ++ model ++ "; count: " ++ toString l.length ++ "; " ++
    String.intercalate "; " (l.map renderBatchEntry)

/-- Sequential loop of the `batch_embeddings` tool (`src/src/index.ts`,
lines 265-301): each text is posted to `/api/embed` in turn, every response
is awaited before the next request is issued, and the pair
`(text, embeddings[0])` is pushed in input order.  A thrown error aborts
the loop and propagates; the log records the requests issued so far. -/
def batchLoop (w : Ollama) (model : String) :
    List String → Svc (List (String × Option (List ℚ))) × List ServiceCall
  | [] => (.ok [], [])
  | t :: ts =>
    match w.embed model t with
    | .error e => (.error e, [.embed model t])
    | .ok es =>
      match batchLoop w model ts with
      | (.ok l, log) => (.ok ((t, es.head?) :: l), .embed model t :: log)
      | (.error e, log) => (.error e, .embed model t :: log)

/-- One dispatch of the `CallToolRequestSchema` handler body (the `switch`
in `src/src/index.ts`, lines 159-386) before the surrounding `try`/`catch`:
either the response returned by the matched branch, or the message of the
error thrown inside it, paired with the list of HTTP requests issued.  The
`switch` on the tool name is rendered as the equivalent chain of string
comparisons.  Reading `embeddings[0].length` of an empty `embeddings` array
throws a `TypeError`, hence the dedicated `.ok []` case. -/
def runTool (w : Ollama) (name : String) (args : CallArgs) :
    Svc ToolResponse × List ServiceCall :=
  if name = "list_models" then
    match w.tags with
    | .ok d => (.ok { text := renderTags d }, [.tags])
    | .error e => (.error e, [.tags])
  else if name = "get_model_info" then
    let model := strOr args.model
    match w.showModel model with
    | .ok body => (.ok { text := body }, [.showModel model])
    | .error e => (.error e, [.showModel model])
  else if name = "generate_embedding" then
    let model := strOr args.model
    let text := strOr args.text
    match w.embed model text with
    | .ok [] =>
      (.error "Cannot read properties of undefined (reading 'length')",
        [.embed model text])
    | .ok (v :: _) => (.ok { text := renderEmbedding model v }, [.embed model text])
    | .error e => (.error e, [.embed model text])
  else if name = "generate_completion" then
    let body := completionBody args
    match w.generate body with
    | .ok g =>
      (.ok { text := renderCompletion body.model body.prompt g }, [.generate body])
    | .error e => (.error e, [.generate body])
  else if name = "batch_embeddings" then
    let model := strOr args.model
    let texts := args.texts.getD []
    match batchLoop w model texts with
    | (.ok l, log) => (.ok { text := renderBatch model l }, log)
    | (.error e, log) => (.error e, log)
  else if name = "pull_model" then
    let model := strOr args.model
    match w.pull model with
    | .ok _ => (.ok { text := "Successfully pulled model: " ++ model }, [.pull model])
    | .error e => (.error e, [.pull model])
  else if name = "delete_model" then
    let model := strOr args.model
    match w.deleteModel model with
    | .ok _ => (.ok { text := "Successfully deleted model: " ++ model }, [.deleteModel model])
    | .error e => (.error e, [.deleteModel model])
  else if name = "check_ollama_health" then
    match w.tags with
    | .ok d =>
      (.ok { text := "status: healthy; models_count: " ++
          toString ((d.models.map List.length).getD 0) }, [.tags])
    | .error _ =>
      (.ok { text := "status: unhealthy; error: Cannot connect to Ollama" }, [.tags])
  else
    (.ok { text := "Unknown tool: " ++ name, isError := true }, [])

/-- The full `CallToolRequestSchema` handler (`src/src/index.ts`, lines
154-400): an error thrown by any branch is caught and converted into a
response with `isError := true` and the `Error executing tool:` prefix. -/
def handleRequest (w : Ollama) (name : String) (args : CallArgs) :
    ToolResponse × List ServiceCall :=
  match runTool w name args with
  | (.ok r, log) => (r, log)
  | (.error e, log) =>
    ({ text := "Error executing tool: " ++ e, isError := true }, log)

/-- Names of the published tools (the `tools` array in `src/src/index.ts`,
lines 18-148); these are exactly the `switch` cases of the dispatcher.
Input schemas and descriptions carry no behaviour and are elided. -/
def toolNames : List String :=
  ["list_models", "get_model_info", "generate_embedding", "generate_completion",
   "batch_embeddings", "pull_model", "delete_model", "check_ollama_health"]

/-- Responses and concatenated request log of a sequence of tool calls.
The server keeps no state whatsoever between calls. -/
def runServer (w : Ollama) (reqs : List (String × CallArgs)) :
    List ToolResponse × List ServiceCall :=
  (reqs.map fun p => (handleRequest w p.1 p.2).1,
   (reqs.map fun p => (handleRequest w p.1 p.2).2).flatten)

/-- Arguments of a `generate_embedding` call. -/
def embedArgs (m t : String) : CallArgs := { model := some m, text := some t }

/-! ## The `CircuitBreaker` class of the Phase 4 design document -/

/-- States of the `CircuitBreaker` class of the Phase 4 design document
(`closed`, `open`, `half-open`); `open` is a Lean keyword, hence
`opened`. -/
inductive CBState
  | closed
  | opened
  | halfOpen
deriving Repr, DecidableEq

/-- Fields of the `CircuitBreaker` class; the defaults are the class field
initializers. -/
structure CircuitBreaker where
  state : CBState := .closed
  failures : Nat := 0
  lastFailureTime : Nat := 0
  failureThreshold : Nat := 5
  cbTimeout : Nat := 60000
deriving Repr, DecidableEq

/-- Outcome of `CircuitBreaker.execute`: the wrapped call's result, the
wrapped call's rethrown error, or the `Circuit breaker is open` error
thrown without invoking the wrapped call. -/
inductive CBOutcome (E A : Type)
  | ok (a : A)
  | fnErr (e : E)
  | circuitOpen
deriving Repr, DecidableEq

/-- Body of `execute` once the open-state check has passed: run `fn`, then
`onSuccess` (reset `failures`, close) or `onFailure` (count the failure,
stamp the time, open once `failures >= failureThreshold`).  The final
`Bool` records that `fn` was invoked. -/
def cbRunCall {E A : Type} (cb : CircuitBreaker) (now : Nat) (fn : Except E A) :
    CBOutcome E A × CircuitBreaker × Bool :=
  match fn with
  | .ok a => (.ok a, { cb with failures := 0, state := .closed }, true)
  | .error e =>
    let f := cb.failures + 1
    (.fnErr e,
      { cb with
          failures := f
          lastFailureTime := now
          state := if cb.failureThreshold ≤ f then .opened else cb.state },
      true)

/-- The `execute` method of the `CircuitBreaker` class: while the breaker
is open and the cooldown has not elapsed, throw immediately without
invoking `fn`; once `Date.now() - lastFailureTime > timeout`, move to
half-open and run the probe.  The wrapped asynchronous call is modelled by
its result `fn`, and `Date.now()` by the parameter `now`. -/
def cbExecute {E A : Type} (cb : CircuitBreaker) (now : Nat) (fn : Except E A) :
    CBOutcome E A × CircuitBreaker × Bool :=
  if cb.state = .opened then
    if cb.cbTimeout < now - cb.lastFailureTime then
      cbRunCall { cb with state := .halfOpen } now fn
    else
      (.circuitOpen, cb, false)
  else
    cbRunCall cb now fn

/-- Breaker state after a sequence of failing calls, all at time `now`,
each carrying error `e`. -/
def cbAfterFailures (e : String) (now : Nat) : Nat → CircuitBreaker
  | 0 => {}
  | n + 1 => (cbExecute (cbAfterFailures e now n) now (.error e : Except String Unit)).2.1

/-! ## The `getEmbedding` cache of the Phase 4 design document -/

/-- Entry of the in-memory embedding cache of the Phase 4 design
document. -/
structure CacheEntry where
  embedding : List ℚ
  created_at : Nat
  hit_count : Nat
deriving Repr, DecidableEq

/-- The cache `Map`, modelled as an insertion-ordered association list. -/
abbrev EmbCache := List (String × CacheEntry)

/-- Time-to-live of a cache entry: 24 hours in milliseconds
(`24*3600*1000`). -/
def cacheTTL : Nat := 24 * 3600 * 1000

/-- Cache key `` `${model}:${text}` ``. -/
def cacheKey (model text : String) : String := model ++ ":" ++ text

/-- `Map.get`. -/
def mapGet (c : EmbCache) (k : String) : Option CacheEntry :=
  (c.find? (fun p => p.1 = k)).map (fun p => p.2)

/-- `Map.set`: overwrite in place when the key exists, append otherwise. -/
def mapSet (c : EmbCache) (k : String) (v : CacheEntry) : EmbCache :=
  if c.any (fun p => p.1 = k) then
    c.map (fun p => if p.1 = k then (k, v) else p)
  else
    c ++ [(k, v)]

/-- The freshness test of `getEmbedding`:
`cached && Date.now() - cached.created_at < 24*3600*1000`.  A lookup of an
expired entry fails this test, which is the miss reported by the cache. -/
def cacheFresh (c : EmbCache) (k : String) (now : Nat) : Option CacheEntry :=
  match mapGet c k with
  | some e => if now - e.created_at < cacheTTL then some e else none
  | none => none

/-- The `getEmbedding` helper of the Phase 4 design document.  On a fresh
hit the cached vector is returned and its `hit_count` incremented; on a
miss the generator is called, the result is cached with the current
timestamp, and the bound of 10000 entries is enforced through `evictLRU`
(a helper the design document leaves undefined, hence a parameter).  The
returned `Bool` records whether the generator — the embedding service —
was invoked. -/
def getEmbedding (gen : String → String → List ℚ) (evictLRU : EmbCache → EmbCache)
    (c : EmbCache) (text model : String) (now : Nat) :
    List ℚ × EmbCache × Bool :=
  let k := cacheKey model text
  match cacheFresh c k now with
  | some e =>
    (e.embedding,
      c.map (fun p => if p.1 = k then (k, { p.2 with hit_count := p.2.hit_count + 1 }) else p),
      false)
  | none =>
    let emb := gen text model
    let c1 := mapSet c k { embedding := emb, created_at := now, hit_count := 0 }
    (emb, if 10000 < c1.length then evictLRU c1 else c1, true)

/-! ## Theorems for C1, C8, C9, C10 -/

/-- C1.  The `batch_embeddings` tool returns exactly one embedding entry
per input text, and the i-th entry pairs the i-th input text with the first
embedding the service returns for that text: the successful result is
literally the input list mapped through the service.  The loop is
sequential — each sub-call is awaited before the next is issued — so
completion order coincides with issue order and cannot permute the
result. -/
theorem batch_embeddings_preserves_order (w : Ollama) (model : String)
    (texts : List String) (l : List (String × Option (List ℚ)))
    (h : (batchLoop w model texts).1 = .ok l) :
    l = texts.map (fun t => (t, (w.embed model t).toOption.bind List.head?)) ∧
      l.length = texts.length := by
  induction texts generalizing l with
  | nil =>
    simp [batchLoop] at h
    simp [h]
  | cons t ts ih =>
    rcases hw : w.embed model t with e | es <;>
      rcases hb : batchLoop w model ts with ⟨r | r, log⟩ <;>
        simp [batchLoop, hw, hb] at h
    obtain ⟨ih1, ih2⟩ := ih r (by rw [hb])
    subst h
    simp [hw, ih1, ih2, Except.toOption]

/-- Service used by the C1 witness: a pure embedding service. -/
def wBatch : Ollama :=
  { tags := .error "unused"
    showModel := fun _ => .error "unused"
    embed := fun _ t => .ok (if t = "a" then [[1, 0]] else [[0, 1]])
    generate := fun _ => .error "unused"
    pull := fun _ => .error "unused"
    deleteModel := fun _ => .error "unused" }

/-- Witness for C1 at a concrete two-text batch. -/
theorem batch_embeddings_preserves_order_witness :
    ([("a", some [1, 0]), ("b", some [0, 1])] : List (String × Option (List ℚ)))
        = ["a", "b"].map
            (fun t => (t, (wBatch.embed "m" t).toOption.bind List.head?)) ∧
      ([("a", some [1, 0]), ("b", some [0, 1])]
          : List (String × Option (List ℚ))).length = ["a", "b"].length :=
  batch_embeddings_preserves_order wBatch "m" ["a", "b"]
    [("a", some [1, 0]), ("b", some [0, 1])] rfl

/-- C8.  Embedding generation is deterministic: with the external service
modelled as a pure function, two `generate_embedding` calls with the same
model and text — issued back to back to the stateless server — produce
identical responses, hence bit-identical embedding vectors. -/
theorem generate_embedding_deterministic (w : Ollama) (m t : String) :
    (runServer w [("generate_embedding", embedArgs m t),
                  ("generate_embedding", embedArgs m t)]).1.get? 0 =
      (runServer w [("generate_embedding", embedArgs m t),
                    ("generate_embedding", embedArgs m t)]).1.get? 1 := by
  simp [runServer]

/-- C9.  The tool-call dispatcher is total at its public interface (it is a
Lean function, and the two clauses below pin down its behaviour on every
abnormal path): an error thrown by any handler branch is converted into a
response with `isError := true` whose text extends the prefix
`Error executing tool:`, and a tool name outside the published set yields
`isError := true` with an `Unknown tool` message and no network I/O. -/
theorem dispatcher_total_on_errors (w : Ollama) (name : String) (args : CallArgs) :
    (∀ e log, runTool w name args = (.error e, log) →
      handleRequest w name args =
          ({ text := "Error executing tool: " ++ e, isError := true }, log) ∧
        ∃ rest, (handleRequest w name args).1.text =
          "Error executing tool:" ++ rest) ∧
    (name ∉ toolNames →
      handleRequest w name args =
        ({ text := "Unknown tool: " ++ name, isError := true }, [])) := by
  constructor
  · intro e log h
    have hx : handleRequest w name args =
        ({ text := "Error executing tool: " ++ e, isError := true }, log) := by
      simp [handleRequest, h]
    refine ⟨hx, " " ++ e, ?_⟩
    rw [hx]
    show "Error executing tool: " ++ e = "Error executing tool:" ++ (" " ++ e)
    rw [← String.append_assoc]
    rfl
  · intro h
    simp only [toolNames, List.mem_cons, List.not_mem_nil, or_false, not_or] at h
    obtain ⟨h1, h2, h3, h4, h5, h6, h7, h8⟩ := h
    simp [handleRequest, runTool, h1, h2, h3, h4, h5, h6, h7, h8]

/-- Service used by witnesses that need a failing embedding backend. -/
def wErr : Ollama :=
  { tags := .error "connect ECONNREFUSED 127.0.0.1:11434"
    showModel := fun _ => .error "connect ECONNREFUSED 127.0.0.1:11434"
    embed := fun _ _ => .error "connect ECONNREFUSED 127.0.0.1:11434"
    generate := fun _ => .error "connect ECONNREFUSED 127.0.0.1:11434"
    pull := fun _ => .error "connect ECONNREFUSED 127.0.0.1:11434"
    deleteModel := fun _ => .error "connect ECONNREFUSED 127.0.0.1:11434" }

/-- Witness for C9: a concrete HTTP failure is converted into an
`Error executing tool:` response, and a concrete unpublished tool name is
answered with an `Unknown tool` error response. -/
theorem dispatcher_total_on_errors_witness :
    (handleRequest wErr "generate_embedding" (embedArgs "m" "t") =
        ({ text := "Error executing tool: connect ECONNREFUSED 127.0.0.1:11434",
           isError := true }, [.embed "m" "t"])) ∧
      handleRequest wErr "make_coffee" {} =
        ({ text := "Unknown tool: make_coffee", isError := true }, []) :=
  ⟨((dispatcher_total_on_errors wErr "generate_embedding" (embedArgs "m" "t")).1
      "connect ECONNREFUSED 127.0.0.1:11434" [.embed "m" "t"] rfl).1,
   (dispatcher_total_on_errors wErr "make_coffee" {}).2 (by decide)⟩

/-- C10.  In `generate_completion` a sampling parameter supplied as `0` is
indistinguishable from an absent one: the forwarded request body is
identical in the two cases, and the forwarded options fall back to the
defaults `0.7`, `40` and `0.9`. -/
theorem generate_completion_zero_is_default (args : CallArgs) :
    completionBody { args with temperature := some 0 } =
        completionBody { args with temperature := none } ∧
      completionBody { args with top_k := some 0 } =
        completionBody { args with top_k := none } ∧
      completionBody { args with top_p := some 0 } =
        completionBody { args with top_p := none } ∧
      (completionBody { args with temperature := some 0 }).options.temperature = 7 / 10 ∧
      (completionBody { args with top_k := some 0 }).options.top_k = 40 ∧
      (completionBody { args with top_p := some 0 }).options.top_p = 9 / 10 := by
  simp [completionBody, numOr]

/-! ## Theorems for C2 and C3 -/

/-- C2 counterexample.  With the embedding service failing every call, six
consecutive `generate_embedding` requests each reach the network: the log
records six HTTP requests and every response is an error response.  The
sixth call after five consecutive failures therefore still attempts
network I/O instead of failing fast — no circuit breaker guards the
embedding path of the server. -/
theorem no_circuit_breaker_counterexample :
    (runServer wErr
        (List.replicate 6 ("generate_embedding", embedArgs "nomic-embed-text" "hi"))).2 =
      List.replicate 6 (.embed "nomic-embed-text" "hi") ∧
    (runServer wErr
        (List.replicate 6 ("generate_embedding", embedArgs "nomic-embed-text" "hi"))).1 =
      List.replicate 6
        { text := "Error executing tool: connect ECONNREFUSED 127.0.0.1:11434"
          isError := true } := by
  decide

/-- C2 (amended).  The server's `generate_embedding` tool invokes the
embedding service on every single request — no breaker state exists
between calls — while the `CircuitBreaker` class of the Phase 4 design
document implements the described machine: five consecutive failures of a
fresh breaker open it (the counter counts consecutive failures, there is
no rolling time window); while open and within the 60 s cooldown a call
throws immediately without invoking the wrapped function and leaves the
breaker unchanged; once the cooldown has elapsed the breaker moves to
half-open and the single probe is invoked, a successful probe closes the
breaker and a failing probe (whose failure count has reached the
threshold) reopens it. -/
theorem circuit_breaker_design (w : Ollama) (args : CallArgs) (e : String)
    (now : Nat) (cb : CircuitBreaker) (fn : Except String (List ℚ)) :
    (handleRequest w "generate_embedding" args).2 =
        [.embed (strOr args.model) (strOr args.text)] ∧
      ((cbAfterFailures e now 5).state = .opened ∧
        (cbAfterFailures e now 5).failures = 5) ∧
      (cb.state = .opened → now - cb.lastFailureTime ≤ cb.cbTimeout →
        cbExecute cb now fn = (.circuitOpen, cb, false)) ∧
      (cb.state = .opened → cb.cbTimeout < now - cb.lastFailureTime →
        (cbExecute cb now fn).2.2 = true ∧
          (∀ a, fn = .ok a → (cbExecute cb now fn).2.1.state = .closed) ∧
          (∀ e2, fn = .error e2 → cb.failureThreshold ≤ cb.failures + 1 →
            (cbExecute cb now fn).2.1.state = .opened)) := by
  refine ⟨?_, ?_, ?_, ?_⟩
  · rcases hw : w.embed (strOr args.model) (strOr args.text) with e2 | es
    · simp [handleRequest, runTool, hw]
    · cases es <;> simp [handleRequest, runTool, hw]
  · simp [cbAfterFailures, cbExecute, cbRunCall]
  · intro h1 h2
    simp [cbExecute, h1, Nat.not_lt.mpr h2]
  · intro h1 h2
    refine ⟨?_, ?_, ?_⟩
    · rcases fn with e2 | a <;> simp [cbExecute, h1, h2, cbRunCall]
    · intro a ha
      subst ha
      simp [cbExecute, h1, h2, cbRunCall]
    · intro e2 ha hthr
      subst ha
      simp [cbExecute, h1, h2, cbRunCall, hthr]

/-- Breaker used by the C2 witness: open since time 1000 with five recorded
failures. -/
def cbOpenEx : CircuitBreaker :=
  { state := .opened, failures := 5, lastFailureTime := 1000 }

/-- Witness for C2 at concrete inputs: a concrete embed request logs
exactly one HTTP call; five concrete failures open a fresh breaker; the
open breaker rejects at time 2000 without invoking the call; at time
100000 the probe runs, a successful probe closes the breaker and a failing
probe reopens it. -/
theorem circuit_breaker_design_witness :
    (handleRequest wErr "generate_embedding" (embedArgs "m" "t")).2 = [.embed "m" "t"] ∧
      (cbAfterFailures "boom" 0 5).state = .opened ∧
      cbExecute cbOpenEx 2000 (.ok [1] : Except String (List ℚ)) =
        (.circuitOpen, cbOpenEx, false) ∧
      (cbExecute cbOpenEx 100000 (.ok [1] : Except String (List ℚ))).2.1.state = .closed ∧
      (cbExecute cbOpenEx 100000 (.error "boom" : Except String (List ℚ))).2.1.state
        = .opened := by
  refine ⟨?_, ?_, ?_, ?_, ?_⟩
  · exact (circuit_breaker_design wErr (embedArgs "m" "t") "boom" 0 cbOpenEx (.ok [1])).1
  · exact (circuit_breaker_design wErr (embedArgs "m" "t") "boom" 0 cbOpenEx (.ok [1])).2.1.1
  · exact (circuit_breaker_design wErr (embedArgs "m" "t") "boom" 2000 cbOpenEx
      (.ok [1])).2.2.1 rfl (by decide)
  · exact ((circuit_breaker_design wErr (embedArgs "m" "t") "boom" 100000 cbOpenEx
      (.ok [1])).2.2.2 rfl (by decide)).2.1 [1] rfl
  · exact ((circuit_breaker_design wErr (embedArgs "m" "t") "boom" 100000 cbOpenEx
      (.error "boom")).2.2.2 rfl (by decide)).2.2 "boom" rfl (by decide)

/-- Service used by the C3 counterexample: a pure, always-succeeding
embedding backend. -/
def wPure : Ollama :=
  { tags := .ok ⟨some ["nomic-embed-text"]⟩
    showModel := fun m => .ok m
    embed := fun _ _ => .ok [[1, 2, 3]]
    generate := fun _ => .error "unused"
    pull := fun _ => .ok ()
    deleteModel := fun _ => .ok () }

/-- C3 counterexample.  Two identical `generate_embedding` requests to the
server both reach the embedding service — the log records two HTTP
requests.  Were a cache consulted before invoking the gateway, the second
identical request would have been served from the value cached by the
first one and the log would contain a single request: the server's
embedding path has no cache in front of it. -/
theorem no_embedding_cache_counterexample :
    (runServer wPure [("generate_embedding", embedArgs "nomic-embed-text" "hello"),
                      ("generate_embedding", embedArgs "nomic-embed-text" "hello")]).2 =
      [.embed "nomic-embed-text" "hello", .embed "nomic-embed-text" "hello"] := by
  decide

/-- C3 (amended).  The `getEmbedding` cache of the Phase 4 design document
satisfies the round-trip law: caching a generated vector under a fresh key
at time `t0` appends exactly that entry, a lookup before the 24 h TTL has
expired is a hit returning the vector exactly without invoking the
generator, and a lookup at or after expiry is a miss that invokes the
generator again.  The server's `generate_embedding` tool however consults
no cache: a repeated identical request invokes the service a second
time. -/
theorem embedding_cache_roundtrip (gen : String → String → List ℚ)
    (evict : EmbCache → EmbCache) (c : EmbCache) (text model : String)
    (t0 t1 t2 : Nat) (w : Ollama) (m t : String)
    (hfresh : mapGet c (cacheKey model text) = none)
    (hsize : c.length + 1 ≤ 10000) :
    getEmbedding gen evict c text model t0 =
        (gen text model,
          c ++ [(cacheKey model text, ⟨gen text model, t0, 0⟩)], true) ∧
      (t1 - t0 < cacheTTL →
        (getEmbedding gen evict
            (c ++ [(cacheKey model text, ⟨gen text model, t0, 0⟩)])
            text model t1).1 = gen text model ∧
        (getEmbedding gen evict
            (c ++ [(cacheKey model text, ⟨gen text model, t0, 0⟩)])
            text model t1).2.2 = false) ∧
      (cacheTTL ≤ t2 - t0 →
        (getEmbedding gen evict
            (c ++ [(cacheKey model text, ⟨gen text model, t0, 0⟩)])
            text model t2).2.2 = true) ∧
      (runServer w [("generate_embedding", embedArgs m t),
                    ("generate_embedding", embedArgs m t)]).2 =
        [.embed m t, .embed m t] := by
  have hfind : c.find? (fun p => decide (p.1 = cacheKey model text)) = none := by
    cases hf : c.find? (fun p => decide (p.1 = cacheKey model text)) with
    | none => rfl
    | some p => simp [mapGet, hf] at hfresh
  have hnone : ∀ p ∈ c, (decide (p.1 = cacheKey model text)) = false := by
    intro p hp
    have := List.find?_eq_none.mp hfind p hp
    simpa using this
  have hany : c.any (fun p => decide (p.1 = cacheKey model text)) = false := by
    rw [List.any_eq_false]
    intro p hp
    simp [hnone p hp]
  have happ : mapGet (c ++ [(cacheKey model text, ⟨gen text model, t0, 0⟩)])
      (cacheKey model text) = some ⟨gen text model, t0, 0⟩ := by
    simp [mapGet, List.find?_append, hfind, List.find?_cons]
  refine ⟨?_, ?_, ?_, ?_⟩
  · simp only [getEmbedding, cacheFresh, hfresh, mapSet, hany]
    simp [hsize, Nat.not_lt.mpr hsize]
  · intro hlt
    simp [getEmbedding, cacheFresh, happ, hlt]
  · intro hge
    simp [getEmbedding, cacheFresh, happ, Nat.not_lt.mpr hge]
  · rcases hw : w.embed m t with e2 | es
    · simp [runServer, handleRequest, runTool, embedArgs, strOr, hw]
    · cases es <;> simp [runServer, handleRequest, runTool, embedArgs, strOr, hw]

/-- Witness for C3 at concrete inputs: an empty cache, a constant
generator, a hit at time 5 and a miss at the exact TTL boundary. -/
theorem embedding_cache_roundtrip_witness :
    getEmbedding (fun _ _ => [1, 2]) id [] "hello" "m" 0 =
        ([1, 2], [("m:hello", ⟨[1, 2], 0, 0⟩)], true) ∧
      (getEmbedding (fun _ _ => [1, 2]) id [("m:hello", ⟨[1, 2], 0, 0⟩)]
          "hello" "m" 5).1 = [1, 2] ∧
      (getEmbedding (fun _ _ => [1, 2]) id [("m:hello", ⟨[1, 2], 0, 0⟩)]
          "hello" "m" 5).2.2 = false ∧
      (getEmbedding (fun _ _ => [1, 2]) id [("m:hello", ⟨[1, 2], 0, 0⟩)]
          "hello" "m" cacheTTL).2.2 = true ∧
      (runServer wPure [("generate_embedding", embedArgs "m" "hi"),
                        ("generate_embedding", embedArgs "m" "hi")]).2 =
        [.embed "m" "hi", .embed "m" "hi"] := by
  obtain ⟨h1, h2, h3, h4⟩ := embedding_cache_roundtrip (fun _ _ => [1, 2]) id []
    "hello" "m" 0 5 cacheTTL wPure "m" "hi" (by decide) (by decide)
  obtain ⟨h2a, h2b⟩ := h2 (by decide)
  exact ⟨h1, h2a, h2b, h3 (by decide), h4⟩

/-! ## The `smartChunk` function of the Phase 3 design document -/

/-- Worker of `splitParas`, processing the character list of the document.
`acc` holds the current part reversed; `pending` counts newline characters
seen but not yet classified.  A maximal run of at least two newlines is a
separator (the regular expression `\n\n+`); a single newline stays inside
the part, and a trailing separator produces a final empty part, matching
the JavaScript `split` semantics. -/
def splitParasAux : List Char → List Char → Nat → List String
  | [], acc, pending =>
    if 2 ≤ pending then [String.mk acc.reverse, ""]
    else [String.mk (List.replicate pending '\n' ++ acc).reverse]
  | c :: rest, acc, pending =>
    if c = '\n' then splitParasAux rest acc (pending + 1)
    else if 2 ≤ pending then
      String.mk acc.reverse :: splitParasAux rest [c] 0
    else splitParasAux rest (c :: (List.replicate pending '\n' ++ acc)) 0

/-- The Lean rendering of `content.split(/\n\n+/)`, the first step of
`smartChunk`. -/
def splitParas (s : String) : List String := splitParasAux s.data [] 0

/-- One iteration of the `smartChunk` loop over the paragraphs: when the
estimated tokens of the current chunk plus the next paragraph exceed the
budget and the current chunk is nonempty (`currentChunk` is truthy), the
current chunk is flushed and the next chunk starts with the paragraph
alone; otherwise the paragraph is appended to the current chunk behind a
blank line. -/
def smartChunkStep (et : String → Nat) (chunkSize : Nat)
    (st : List String × String) (para : String) : List String × String :=
  if chunkSize < et st.2 + et para ∧ st.2 ≠ "" then
    (st.1 ++ [st.2], para)
  else
    (st.1, st.2 ++ (if st.2 ≠ "" then "\n\n" else "") ++ para)

/-- The paragraph-level body of `smartChunk`: fold the loop over the
paragraphs and flush the final nonempty chunk. -/
def smartChunkCore (et : String → Nat) (chunkSize : Nat) (paras : List String) :
    List String :=
  let st := paras.foldl (smartChunkStep et chunkSize) ([], "")
  if st.2 ≠ "" then st.1 ++ [st.2] else st.1

/-- The `smartChunk` function of the Phase 3 design document (`Content
Chunking Strategy`).  The document's code calls an `estimateTokens` helper
it never defines, so the tokenizer is a parameter; the function has no
overlap parameter, carries no tokens between chunks, and keeps an
oversized single paragraph whole. -/
def smartChunk (et : String → Nat) (content : String) (chunkSize : Nat := 500) :
    List String :=
  smartChunkCore et chunkSize (splitParas content)

/-! ## The `computeRank` function of the Phase 4 design document -/

/-- Ranking factors of `search_memories_advanced` in the Phase 4 design
document, each documented as lying in the range 0 to 1. -/
structure RankingFactors where
  similarity : ℚ
  recency : ℚ
  frequency : ℚ
  importance_score : ℚ
  source_trust : ℚ
  entity_relevance : ℚ
deriving Repr, DecidableEq

/-- The `computeRank` weighted combination of the Phase 4 design document,
with the weights 0.35, 0.20, 0.15, 0.15, 0.10, 0.05 written as
rationals. -/
def computeRank (f : RankingFactors) : ℚ :=
  f.similarity * (35 / 100) + f.recency * (20 / 100) + f.frequency * (15 / 100) +
    f.importance_score * (15 / 100) + f.source_trust * (10 / 100) +
    f.entity_relevance * (5 / 100)

/-! ## Theorems for C6 and C7 -/

/-- Helper: the empty string is a left identity of string append. -/
theorem str_empty_append (s : String) : "" ++ s = s := by
  cases s
  rfl

/-- Helper: an append of strings is empty only if both parts are. -/
theorem str_append_ne_empty_left (a b : String) (h : a ≠ "") : a ++ b ≠ "" := by
  cases a with
  | mk la =>
    cases b with
    | mk lb =>
      cases la with
      | nil => exact absurd rfl h
      | cons c cs =>
        intro hc
        have : (c :: cs ++ lb) = ([] : List Char) := congrArg String.data hc
        simp at this

/-- C6 counterexample: paragraph of 600 identical characters. -/
def paraA : String := String.mk (List.replicate 600 'a')

/-- C6 counterexample: second paragraph of 600 identical characters. -/
def paraB : String := String.mk (List.replicate 600 'b')

/-- C6 counterexample: a two-paragraph document of 1200 content tokens
under the one-token-per-character tokenizer. -/
def twoParaDoc : String := paraA ++ "\n\n" ++ paraB

set_option maxRecDepth 100000 in
/-- C6 counterexample.  Chunking the two-paragraph 1200-token document with
`chunkSize = 500` yields 2 chunks — the two paragraphs themselves, 600
tokens each — not the 3 chunks of at most 550 tokens with a 50-token
overlap that the claim describes: `smartChunk` accepts no overlap
parameter and copies nothing between chunks, and it never hard-splits an
oversized paragraph. -/
theorem smart_chunk_counterexample :
    smartChunk String.length twoParaDoc 500 = [paraA, paraB] ∧
      (smartChunk String.length twoParaDoc 500).length = 2 ∧
      ¬ (smartChunk String.length twoParaDoc 500).length = 3 ∧
      (smartChunk String.length twoParaDoc 500).map String.length = [600, 600] ∧
      ¬ (600 : Nat) ≤ 550 := by
  decide

/-- C6 (amended).  `smartChunk` accumulates whole paragraphs into the
running chunk until adding the next paragraph would exceed the token
budget, then flushes the chunk and starts the next one with the
overflowing paragraph alone — with no token overlap carried from the tail
of the previous chunk.  For a two-paragraph document this means: if the
two paragraphs together exceed the budget each paragraph becomes its own
chunk, and otherwise both land in one chunk; in particular a two-paragraph
1200-token document chunked with budget 500 yields 2 chunks of 600 tokens
each, not 3 chunks of at most 550 tokens. -/
theorem smart_chunk_flushes_without_overlap (et : String → Nat) (n : Nat)
    (p1 p2 : String) (h1 : p1 ≠ "") (h2 : p2 ≠ "") :
    (n < et p1 + et p2 → smartChunkCore et n [p1, p2] = [p1, p2]) ∧
      (et p1 + et p2 ≤ n → smartChunkCore et n [p1, p2] = [p1 ++ "\n\n" ++ p2]) := by
  constructor
  · intro hgt
    simp [smartChunkCore, smartChunkStep, h1, h2, hgt, str_empty_append]
  · intro hle
    have hne : (p1 ++ "\n\n") ++ p2 ≠ "" :=
      str_append_ne_empty_left _ _ (str_append_ne_empty_left _ _ h1)
    have hnlt : ¬ n < et p1 + et p2 := Nat.not_lt.mpr hle
    simp [smartChunkCore, smartChunkStep, h1, hne, hnlt, str_empty_append]

set_option maxRecDepth 100000 in
/-- Witness for C6 at the concrete 1200-token document: the two 600-token
paragraphs exceed the 500-token budget, so each becomes its own chunk. -/
theorem smart_chunk_flushes_without_overlap_witness :
    smartChunkCore String.length 500 [paraA, paraB] = [paraA, paraB] :=
  (smart_chunk_flushes_without_overlap String.length 500 paraA paraB
    (by decide) (by decide)).1 (by decide)

/-- C7.  The composite score is monotone in access frequency: for any
saturating frequency function — non-decreasing and bounded in `[0, 1]` —
of the access count, two candidates identical in every other ranking
factor are scored so that the larger access count never yields a strictly
smaller `computeRank`.  The design documents never define the map from
`access_count` to the `frequency` factor, so it enters as the function
`freq`, constrained exactly as the specification describes. -/
theorem compute_rank_monotone_in_frequency (freq : Nat → ℚ)
    (hmono : ∀ a b : Nat, a ≤ b → freq a ≤ freq b)
    (hbdd : ∀ n : Nat, 0 ≤ freq n ∧ freq n ≤ 1)
    (f : RankingFactors) (a1 a2 : Nat) (hle : a1 ≤ a2) :
    computeRank { f with frequency := freq a1 } ≤
      computeRank { f with frequency := freq a2 } := by
  have h := hmono a1 a2 hle
  simp only [computeRank]
  linarith

/-- Concrete saturating frequency function for the C7 witness:
`min(1, accessCount/10)` is non-decreasing and bounded by 1. -/
def freqEx (n : Nat) : ℚ := min 1 ((n : ℚ) / 10)

/-- Concrete ranking factors for the C7 witness. -/
def rankEx : RankingFactors :=
  { similarity := 9 / 10
    recency := 1 / 2
    frequency := 0
    importance_score := 1
    source_trust := 1 / 2
    entity_relevance := 0 }

/-- Witness for C7: with the concrete saturating frequency function, a
candidate with access count 7 scores at least as high as one with access
count 2, all other factors equal. -/
theorem compute_rank_monotone_in_frequency_witness :
    computeRank { rankEx with frequency := freqEx 2 } ≤
      computeRank { rankEx with frequency := freqEx 7 } :=
  compute_rank_monotone_in_frequency freqEx
    (fun a b hab => min_le_min le_rfl
      ((div_le_div_iff_of_pos_right (by norm_num)).mpr (by exact_mod_cast hab)))
    (fun n => ⟨le_min (by norm_num) (by positivity), min_le_left _ _⟩)
    rankEx 2 7 (by norm_num)

/-! ## The semantic-search query of the database schema document -/

/-- A row of the `memories` table, restricted to the columns the
semantic-search query touches. -/
structure Memory where
  memory_id : Nat
  conversation_id : String
  content : String
  embedding : List ℚ
  relevance_score : ℚ
  created_at : Nat
  is_archived : Bool
deriving Repr, DecidableEq

/-- A row returned by the semantic-search query (`SELECT memory_id,
content, distance, relevance_score, created_at`). -/
structure QueryRow where
  memory_id : Nat
  content : String
  distance : ℚ
  relevance_score : ℚ
  created_at : Nat
deriving Repr, DecidableEq

/-- Squared Euclidean distance between two vectors.  pgvector's `<->`
operator — the operator the semantic-search query orders by — is Euclidean
(L2) distance, not cosine distance; ordering by the distance equals
ordering by its square, which stays rational, so the square serves as the
sort key (and as the reported `distance` column, an order-preserving
rescaling of it). -/
def l2sq (a b : List ℚ) : ℚ := nsq (List.zipWith (fun x y => x - y) a b)

/-- The `WHERE conversation_id = $2 AND is_archived = false` filter. -/
def memPred (conv : String) (r : Memory) : Bool :=
  decide (r.conversation_id = conv) && !r.is_archived

/-- The `ORDER BY distance` step: a stable sort on the distance key.
PostgreSQL guarantees no particular order among tied keys; stability is
the deterministic refinement chosen here, and the C4 counterexample does
not depend on the choice. -/
def sortByDist (q : List ℚ) (l : List Memory) : List Memory :=
  List.insertionSort (fun a b => l2sq a.embedding q ≤ l2sq b.embedding q) l

/-- The semantic-search query of the database schema document: filter to
the conversation and to unarchived rows, order by `embedding <-> $1`, and
apply `LIMIT $3`. -/
def querySimilar (recs : List Memory) (conv : String) (q : List ℚ) (k : Nat) :
    List QueryRow :=
  ((sortByDist q (recs.filter (memPred conv))).map
    (fun r => ⟨r.memory_id, r.content, l2sq r.embedding q,
      r.relevance_score, r.created_at⟩)).take k

/-- Specification-side comparison of cosine similarities, written without
square roots, following the specification's words that results are ordered
by cosine distance `1 - similarity`: when both dot products are positive,
`dot q u / (‖u‖ ‖q‖) > dot q v / (‖v‖ ‖q‖)` holds exactly when
`(dot q u)^2 * nsq v > (dot q v)^2 * nsq u`, so `specCosSimGt q u v` says
`u` has strictly greater cosine similarity — strictly smaller cosine
distance — to the query `q` than `v`. -/
def specCosSimGt (q u v : List ℚ) : Prop :=
  0 < dot q u ∧ 0 < dot q v ∧ (dot q v) ^ 2 * nsq u < (dot q u) ^ 2 * nsq v

/-! ## The deduplication check of the Phase 2 design document -/

/-- Specification of the similarity threshold test used by the
deduplication check (`threshold: 0.95` handed to `search_memories`, which
keeps results whose similarity reaches the threshold), written without
square roots: for a positive dot product, cosine similarity at least
`19/20` holds exactly when `361 * nsq a * nsq b ≤ 400 * (dot a b)^2`. -/
def simAtLeast95 (a b : List ℚ) : Prop :=
  0 < dot a b ∧ 361 * (nsq a * nsq b) ≤ 400 * (dot a b) ^ 2

instance (a b : List ℚ) : Decidable (simAtLeast95 a b) := by
  unfold simAtLeast95
  infer_instance

/-- A stored memory row as the Phase 2 deduplication check sees it. -/
structure StoredMemory where
  memory_id : Nat
  conversation_id : String
  content : String
  embedding : List ℚ
  access_count : Nat
deriving Repr, DecidableEq

/-- Store state: the rows plus the next id the `BIGSERIAL` column
assigns. -/
structure MemoryStore where
  rows : List StoredMemory
  nextId : Nat
deriving Repr, DecidableEq

/-- Outcome of `store_memory` with the Phase 2 deduplication check. -/
inductive StoreOutcome
  | stored (memory_id : Nat)
  | duplicateError (msg : String)
deriving Repr, DecidableEq

/-- The `store_memory` operation guarded by the deduplication check of the
Phase 2 design document: before storing, `search_memories` is issued with
`top_k: 1` and `threshold: 0.95` inside the same conversation — its result
list is nonempty exactly when some row of the conversation reaches the
threshold.  If any result comes back, the insert is suppressed and the
error `Similar memory already exists` is returned: the snippet neither
returns the existing record's id nor touches its `access_count`.
Otherwise the row is inserted with a fresh id. -/
def storeMemory (s : MemoryStore) (conv content : String) (emb : List ℚ) :
    StoreOutcome × MemoryStore :=
  if (s.rows.filter (fun r => r.conversation_id == conv)).any
      (fun r => simAtLeast95 emb r.embedding) then
    (.duplicateError "Similar memory already exists", s)
  else
    (.stored s.nextId,
      { rows := s.rows ++ [⟨s.nextId, conv, content, emb, 0⟩],
        nextId := s.nextId + 1 })

/-! ## Theorems for C4 and C5 -/

/-- Helper: two sorted lists that are permutations of each other and whose
keys are pairwise distinct are equal. -/
theorem sorted_perm_pairwise_ne_eq {α : Type} (key : α → ℚ) :
    ∀ {l₁ l₂ : List α}, List.Perm l₁ l₂ →
      l₁.Pairwise (fun a b => key a ≤ key b) →
      l₂.Pairwise (fun a b => key a ≤ key b) →
      l₁.Pairwise (fun a b => key a ≠ key b) → l₁ = l₂ := by
  intro l₁
  induction l₁ with
  | nil =>
    intro l₂ hp _ _ _
    exact hp.nil_eq
  | cons a t ih =>
    intro l₂ hp hs₁ hs₂ hd
    cases l₂ with
    | nil => exact hp.eq_nil
    | cons b t₂ =>
      have hab : a = b := by
        by_contra hne
        have hbt : b ∈ t := by
          rcases List.mem_cons.mp (hp.mem_iff.mpr (List.mem_cons_self b t₂)) with h | h
          · exact absurd h.symm hne
          · exact h
        have hat : a ∈ t₂ := by
          rcases List.mem_cons.mp (hp.mem_iff.mp (List.mem_cons_self a t)) with h | h
          · exact absurd h hne
          · exact h
        have h1 : key a ≤ key b := (List.pairwise_cons.mp hs₁).1 b hbt
        have h2 : key b ≤ key a := (List.pairwise_cons.mp hs₂).1 a hat
        exact (List.pairwise_cons.mp hd).1 b hbt (le_antisymm h1 h2)
      subst hab
      rw [ih hp.cons_inv (List.pairwise_cons.mp hs₁).2
        (List.pairwise_cons.mp hs₂).2 (List.pairwise_cons.mp hd).2]

set_option maxHeartbeats 1000000 in
/-- C4 (amended).  `querySimilar` returns at most `topK` rows ordered by
non-decreasing distance under pgvector's `<->` operator — Euclidean
distance, which for non-normalized vectors differs from the cosine
distance the specification names — and whenever the stored vectors of the
conversation have pairwise distinct distances to the query, the returned
sequence is invariant under reversing the insertion order.  With tied
distances the query has no deterministic tie-break, so insertion-order
invariance holds only under the distinctness hypothesis. -/
theorem query_similar_spec (recs : List Memory) (conv : String) (q : List ℚ)
    (k : Nat) :
    (querySimilar recs conv q k).length ≤ k ∧
      (querySimilar recs conv q k).Pairwise (fun a b => a.distance ≤ b.distance) ∧
      ((recs.filter (memPred conv)).Pairwise
          (fun a b => l2sq a.embedding q ≠ l2sq b.embedding q) →
        querySimilar recs.reverse conv q k = querySimilar recs conv q k) := by
  haveI hTot : IsTotal Memory (fun a b => l2sq a.embedding q ≤ l2sq b.embedding q) :=
    ⟨fun a b => le_total _ _⟩
  haveI hTrans : IsTrans Memory (fun a b => l2sq a.embedding q ≤ l2sq b.embedding q) :=
    ⟨fun a b c hab hbc => le_trans hab hbc⟩
  refine ⟨List.length_take_le _ _, ?_, ?_⟩
  · have hs : (sortByDist q (recs.filter (memPred conv))).Pairwise
        (fun a b => l2sq a.embedding q ≤ l2sq b.embedding q) :=
      List.sorted_insertionSort _ _
    have hm : ((sortByDist q (recs.filter (memPred conv))).map
        (fun r => (⟨r.memory_id, r.content, l2sq r.embedding q,
          r.relevance_score, r.created_at⟩ : QueryRow))).Pairwise
        (fun a b => a.distance ≤ b.distance) := by
      rw [List.pairwise_map]
      exact hs
    exact hm.sublist (List.take_sublist _ _)
  · intro hd
    have hfilt : recs.reverse.filter (memPred conv) =
        (recs.filter (memPred conv)).reverse := by
      rw [List.filter_reverse]
    have hrev : List.Perm (recs.reverse.filter (memPred conv))
        (recs.filter (memPred conv)) := by
      rw [hfilt]
      exact List.reverse_perm _
    have hperm : List.Perm (sortByDist q (recs.reverse.filter (memPred conv)))
        (sortByDist q (recs.filter (memPred conv))) :=
      (List.perm_insertionSort _ _).trans
        (hrev.trans (List.perm_insertionSort _ _).symm)
    have hdist : (sortByDist q (recs.reverse.filter (memPred conv))).Pairwise
        (fun a b => l2sq a.embedding q ≠ l2sq b.embedding q) :=
      hd.perm (hrev.symm.trans (List.perm_insertionSort _ _).symm)
        (fun h he => h he.symm)
    have heq : sortByDist q (recs.reverse.filter (memPred conv)) =
        sortByDist q (recs.filter (memPred conv)) :=
      sorted_perm_pairwise_ne_eq (fun r : Memory => l2sq r.embedding q) hperm
        (List.sorted_insertionSort _ _) (List.sorted_insertionSort _ _) hdist
    simp only [querySimilar, heq]

/-- Rows for the C4 witness: three rows with pairwise distinct distances to
the query `[0, 0]`. -/
def memW1 : Memory := ⟨1, "c", "one", [1, 0], 1, 0, false⟩

/-- Second C4 witness row. -/
def memW2 : Memory := ⟨2, "c", "two", [2, 0], 1, 0, false⟩

/-- Third C4 witness row, belonging to another conversation. -/
def memW3 : Memory := ⟨3, "e", "three", [3, 0], 1, 0, false⟩

/-- Witness for C4 at a concrete store with distinct distances: the bound,
the ordering and the insertion-order invariance hold concretely. -/
theorem query_similar_spec_witness :
    (querySimilar [memW1, memW2, memW3] "c" [0, 0] 2).length ≤ 2 ∧
      (querySimilar [memW1, memW2, memW3] "c" [0, 0] 2).Pairwise
        (fun a b => a.distance ≤ b.distance) ∧
      querySimilar [memW1, memW2, memW3].reverse "c" [0, 0] 2 =
        querySimilar [memW1, memW2, memW3] "c" [0, 0] 2 := by
  obtain ⟨h1, h2, h3⟩ := query_similar_spec [memW1, memW2, memW3] "c" [0, 0] 2
  refine ⟨h1, h2, h3 ?_⟩
  have hf : List.filter (memPred "c") [memW1, memW2, memW3] = [memW1, memW2] := by
    decide
  rw [hf]
  norm_num [memW1, memW2, List.pairwise_cons, l2sq, nsq, dot, List.zipWith]

/-- C4 counterexample rows: two rows of conversation `c` with identical
embeddings (tied distance to every query). -/
def memA : Memory := ⟨1, "c", "first stored", [1, 0], 1, 0, false⟩

/-- Tied partner of `memA`, differing in id and content. -/
def memB : Memory := ⟨2, "c", "second stored", [1, 0], 1, 0, false⟩

/-- C4 counterexample row far from the query in L2 yet most similar in
cosine. -/
def memU : Memory := ⟨3, "d", "cosine closest", [10, 0], 1, 0, false⟩

/-- C4 counterexample row near the query in L2 yet less similar in
cosine. -/
def memV : Memory := ⟨4, "d", "cosine farther", [1, 1], 1, 0, false⟩

/-- C4 counterexample.  First, with two tied rows the returned sequence
changes when the insertion order is reversed (`topK = 1` even returns a
different record), so the result is not invariant under permuting
insertion order.  Second, the query orders by pgvector's `<->` — Euclidean
distance: for the query `[1, 0]` it returns row 4 before row 3 although
row 3 has strictly greater cosine similarity (strictly smaller cosine
distance), so the result is not ordered by ascending cosine distance. -/
theorem query_similar_counterexample :
    querySimilar [memA, memB] "c" [0, 0] 1 ≠
        querySimilar [memB, memA] "c" [0, 0] 1 ∧
      (querySimilar [memU, memV] "d" [1, 0] 2).map QueryRow.memory_id = [4, 3] ∧
      specCosSimGt [1, 0] memU.embedding memV.embedding := by
  refine ⟨?_, ?_, ?_⟩ <;>
    norm_num [querySimilar, sortByDist, List.insertionSort, List.orderedInsert,
      memA, memB, memU, memV, memPred, l2sq, nsq, dot, List.zipWith,
      List.filter_cons, specCosSimGt]

/-- C5 (amended).  Inserting the same content twice into the same
conversation with deduplication threshold 0.95 stores exactly one row —
the second insert is suppressed — but the second call returns the error
`Similar memory already exists` rather than the existing record's id, and
the stored row, its `access_count` included, is left untouched. -/
theorem dedup_suppresses_second_insert (conv content : String) (emb : List ℚ)
    (hpos : 0 < nsq emb) :
    (storeMemory ⟨[], 0⟩ conv content emb).1 = .stored 0 ∧
      (storeMemory ⟨[], 0⟩ conv content emb).2.rows =
        [⟨0, conv, content, emb, 0⟩] ∧
      (storeMemory (storeMemory ⟨[], 0⟩ conv content emb).2 conv content emb).1 =
        .duplicateError "Similar memory already exists" ∧
      (storeMemory (storeMemory ⟨[], 0⟩ conv content emb).2 conv content emb).2 =
        (storeMemory ⟨[], 0⟩ conv content emb).2 := by
  have hdot : dot emb emb = nsq emb := rfl
  have hsim : simAtLeast95 emb emb := by
    constructor
    · rw [hdot]
      exact hpos
    · rw [hdot]
      nlinarith [sq_nonneg (nsq emb)]
  refine ⟨?_, ?_, ?_, ?_⟩ <;>
    simp [storeMemory, hsim]

/-- Witness for C5 at a concrete double insert of the same content. -/
theorem dedup_suppresses_second_insert_witness :
    (storeMemory ⟨[], 0⟩ "c1" "prefers concise answers" [3, 4]).1 = .stored 0 ∧
      (storeMemory ⟨[], 0⟩ "c1" "prefers concise answers" [3, 4]).2.rows =
        [⟨0, "c1", "prefers concise answers", [3, 4], 0⟩] ∧
      (storeMemory (storeMemory ⟨[], 0⟩ "c1" "prefers concise answers" [3, 4]).2
          "c1" "prefers concise answers" [3, 4]).1 =
        .duplicateError "Similar memory already exists" ∧
      (storeMemory (storeMemory ⟨[], 0⟩ "c1" "prefers concise answers" [3, 4]).2
          "c1" "prefers concise answers" [3, 4]).2 =
        (storeMemory ⟨[], 0⟩ "c1" "prefers concise answers" [3, 4]).2 :=
  dedup_suppresses_second_insert "c1" "prefers concise answers" [3, 4]
    (by norm_num [nsq, dot])

/-- C5 counterexample.  A concrete double insert of identical content at
threshold 0.95: the second call is suppressed and only one row is stored,
yet the outcome is the error `Similar memory already exists` — not the
existing record's id 0 — and the stored row's `access_count` remains 0
instead of being incremented. -/
theorem dedup_returns_error_counterexample :
    (storeMemory (storeMemory ⟨[], 0⟩ "c1" "note" [3, 4]).2 "c1" "note" [3, 4]).1 =
        .duplicateError "Similar memory already exists" ∧
      ¬ (storeMemory (storeMemory ⟨[], 0⟩ "c1" "note" [3, 4]).2
          "c1" "note" [3, 4]).1 = .stored 0 ∧
      ((storeMemory (storeMemory ⟨[], 0⟩ "c1" "note" [3, 4]).2
          "c1" "note" [3, 4]).2.rows.map StoredMemory.access_count) = [0] := by
  have hsim : simAtLeast95 [3, 4] [3, 4] := by
    constructor <;> norm_num [dot, nsq]
  refine ⟨?_, ?_, ?_⟩ <;> simp [storeMemory, hsim]

end OllamaMcp
